import Mathlib

/-!
Shallow embedding of the Rasenpai/Web-Scraper repository (src/main.py and
src/app.py) together with proofs about the claims of its specification.

External effects (HTTP transport, the live DOM, the filesystem) are modelled
as explicit parameters: a fetched page is a total function from a CSS
selector string to the element(s) it matches, and a fetch that can fail is
an `Except` value whose error constructor carries the exception message.
Everything a claim observes (returned records, whether the Selenium path was
invoked, loop iteration counts, cache decisions) is made an explicit result.
-/

set_option autoImplicit false

namespace WebScraper

/-! ## Python string / truthiness helpers -/

/-- Python truthiness of an optional string variable: `None` and `""` are
falsy, every other string is truthy. -/
def truthy : Option String → Bool
  | none => false
  | some s => s != ""

/-- Python `a or b` where both operands are optional strings. -/
def pyOrOpt (a b : Option String) : Option String :=
  if truthy a then a else b

/-- Python `a or b` where `b` is a plain (always present) string, as in the
final `headline_text or "Headline tidak ditemukan"` expressions. -/
def pyOrStr (a : Option String) (b : String) : String :=
  if truthy a then a.getD "" else b

/-- The whitespace characters stripped by Python `str.strip()`:
space, tab, newline, carriage return, form feed, vertical tab. -/
def isPyWhitespace (c : Char) : Bool :=
  c = ' ' || c = Char.ofNat 9 || c = Char.ofNat 10 || c = Char.ofNat 13 ||
    c = Char.ofNat 12 || c = Char.ofNat 11

/-- Python `str.strip()` (also used for BeautifulSoup `get_text(strip=True)`
on a single text node): drop whitespace from both ends. -/
def pyStrip (s : String) : String :=
  String.mk (((s.data.dropWhile isPyWhitespace).reverse.dropWhile isPyWhitespace).reverse)

/-- Python `str.capitalize()`: first character upper-cased, rest lower-cased. -/
def pyCapitalize (s : String) : String :=
  match s.data with
  | [] => ""
  | c :: cs => String.mk (c.toUpper :: cs.map Char.toLower)

/-- Python `s.endswith(suf)`. -/
def strEndsWith (s suf : String) : Bool :=
  s.data.drop (s.data.length - suf.data.length) == suf.data

/-- Python `s.startswith(pre)`. -/
def strStartsWith (s pre : String) : Bool :=
  s.data.take pre.data.length == pre.data

/-! ## Elements and fetched documents -/

/-- A DOM/soup element: its (recursive) text content and its attribute list.
`getAttr` models both Selenium `get_attribute` and BeautifulSoup `get`,
returning `none` when the attribute is absent. -/
structure Element where
  text : String
  attrs : List (String × String)
deriving DecidableEq

def Element.getAttr (e : Element) (name : String) : Option String :=
  e.attrs.lookup name

/-- A document parsed by BeautifulSoup: `selectOne` models `soup.select_one`,
returning the first element matched by the selector or `none`. -/
structure Soup where
  selectOne : String → Option Element

/-- A page loaded in the Selenium driver: `findElement` models
`driver.find_element` (first match or a `NoSuchElementException`, modelled
as `none`); `findElements` models `driver.find_elements` (possibly empty). -/
structure Driver where
  findElement : String → Option Element
  findElements : String → List Element

/-! ## Selector-cascade loops

`src/main.py` contains four inline "try each selector in order" loops for the
news fields plus one per book field.  Apart from the static-path headline
loop they all share the shape of `selectorLoop`: the loop variable starts at
`cur`, each matching selector overwrites it with the extracted value, and the
loop breaks as soon as the value is truthy.  The static-path headline loop
(`get_news`, lines 424-430) instead breaks as soon as a selector matches an
element, regardless of the extracted value: `selectorLoopBreakOnMatch`. -/

/-- The common selector loop: overwrite the running value on every element
match, break on the first truthy value.  Mirrors the loops at
src/main.py:330-341 (selenium image), 319-327 (selenium headline),
433-441 (static image) and 246-265 (book fields, with `cur = some "N/A"`). -/
def selectorLoop (find : String → Option Element) (extract : Element → Option String) :
    List String → Option String → Option String
  | [], cur => cur
  | sel :: rest, cur =>
    match find sel with
    | none => selectorLoop find extract rest cur
    | some e =>
      let v := extract e
      if truthy v then v else selectorLoop find extract rest v

/-- The static-path headline loop (src/main.py:424-430): `break` is executed
whenever `select_one` matches an element, so the loop stops at the first
matching selector even when the extracted text is empty. -/
def selectorLoopBreakOnMatch (find : String → Option Element) (extract : Element → Option String) :
    List String → Option String → Option String
  | [], cur => cur
  | sel :: rest, cur =>
    match find sel with
    | none => selectorLoopBreakOnMatch find extract rest cur
    | some e => extract e

/-- First element matched by any selector in order (helper for stating what
`selectorLoopBreakOnMatch` does). -/
def firstMatch (find : String → Option Element) : List String → Option Element
  | [] => none
  | sel :: rest =>
    match find sel with
    | some e => some e
    | none => firstMatch find rest

/-- The selector-cascade resolution as the specification words it
(spec.md §4.1): the value of the first locator in order whose extracted
value is non-empty; locators whose match extracts an empty value are
skipped.  Kept separate from the loops above so the code's behaviour can be
compared against it. -/
def cascadeFirstNonEmpty (find : String → Option Element) (extract : Element → Option String) :
    List String → Option String
  | [] => none
  | sel :: rest =>
    match find sel with
    | none => cascadeFirstNonEmpty find extract rest
    | some e =>
      let v := extract e
      if truthy v then v else cascadeFirstNonEmpty find extract rest

/-- Extraction used by both headline loops: trimmed text content
(`element.text.strip()` / `get_text(strip=True)`). -/
def headlineTextExtract (e : Element) : Option String :=
  some (pyStrip e.text)

/-- Extraction used by both image loops: `src` attribute with `data-src` as
the lazy-load fallback (`get_attribute("src") or get_attribute("data-src")`). -/
def imageExtract (e : Element) : Option String :=
  pyOrOpt (e.getAttr "src") (e.getAttr "data-src")

/-! ## News source configuration (src/main.py:37-65) -/

structure SourceCfg where
  name : String
  url : String
deriving DecidableEq

def NEWS_SOURCES : List SourceCfg :=
  [⟨"kompas", "https://www.kompas.com/"⟩,
   ⟨"detik", "https://www.detik.com/"⟩,
   ⟨"tribun", "https://www.tribunnews.com/"⟩]

def HEADLINE_SELECTORS : List (String × List String) :=
  [("kompas", [".read__title", ".headline__title", ".most__title", ".trending__title"]),
   ("detik", [".detail__title", ".media__title", ".title", "h1.title", "h2.title"]),
   ("tribun", [".hltitle", ".headline-caption", ".newslist-title", "h1.f50"])]

def IMAGE_SELECTORS : List (String × List String) :=
  [("kompas", [".photo__wrap img", ".headline__thumb img", "img.lozad"]),
   ("detik", [".detail__img-wrap img", ".headline__img img", "picture img"]),
   ("tribun", [".imgpreview img", ".headline-img img", ".news-image img"])]

/-! ## News records and the two fetch paths -/

structure NewsRecord where
  media : String
  headline : String
  image : String
  url : String
deriving DecidableEq

/-- Headline resolution inside `get_news_with_selenium`
(src/main.py:304-354): per-source selectors (or the defaults for an
unconfigured source), then the `h1, h2, .title` fallback which takes the
first element's stripped text whatever it is. -/
def seleniumHeadline (d : Driver) (media : String) : Option String :=
  let sels := (HEADLINE_SELECTORS.lookup media).getD ["h1", "h2.title", ".headline", ".title"]
  let h := selectorLoop d.findElement headlineTextExtract sels none
  if truthy h then h
  else
    match d.findElements "h1, h2, .title" with
    | [] => h
    | e :: _ => some (pyStrip e.text)

/-- The image fallback loop in `get_news_with_selenium` (src/main.py:357-374):
the first `img` whose `src` is truthy and ends with a known image extension. -/
def imageFallbackScan : List Element → Option String
  | [] => none
  | e :: rest =>
    match e.getAttr "src" with
    | none => imageFallbackScan rest
    | some src =>
      if (src != "") && (strEndsWith src ".jpg" || strEndsWith src ".png" || strEndsWith src ".jpeg")
      then some src
      else imageFallbackScan rest

/-- Image resolution inside `get_news_with_selenium` (src/main.py:310-374). -/
def seleniumImage (d : Driver) (media : String) : Option String :=
  let sels := (IMAGE_SELECTORS.lookup media).getD ["img"]
  let v := selectorLoop d.findElement imageExtract sels none
  if truthy v then v
  else
    match imageFallbackScan (d.findElements "img") with
    | some s => some s
    | none => v

/-- `get_news_with_selenium` (src/main.py:284-394).  The rendered fetch is
modelled by its outcome: `Except.error e` when loading/driving the page
raised an exception with message `e` (the `except Exception` branch at
lines 383-390), `Except.ok d` when a DOM was obtained. -/
def get_news_with_selenium (media url : String) (outcome : Except String Driver) : NewsRecord :=
  match outcome with
  | .error e =>
    { media := pyCapitalize media
      headline := "Error: " ++ e
      image := "Error"
      url := url }
  | .ok d =>
    { media := pyCapitalize media
      headline := pyOrStr (seleniumHeadline d media) "Headline tidak ditemukan"
      image := pyOrStr (seleniumImage d media) "Image tidak ditemukan"
      url := url }

/-- Static-path headline resolution in `get_news` (src/main.py:424-430); the
cascade only runs when the source has configured selectors. -/
def staticHeadline (soup : Soup) (media : String) : Option String :=
  match HEADLINE_SELECTORS.lookup media with
  | none => none
  | some sels => selectorLoopBreakOnMatch soup.selectOne headlineTextExtract sels none

/-- Static-path image resolution in `get_news` (src/main.py:433-441). -/
def staticImage (soup : Soup) (media : String) : Option String :=
  match IMAGE_SELECTORS.lookup media with
  | none => none
  | some sels => selectorLoop soup.selectOne imageExtract sels none

/-- `get_news` (src/main.py:397-470).  The static fetch is modelled by its
outcome: `Except.error e` when `requests.get`/`raise_for_status` raised a
`RequestException` (transport error), `Except.ok soup` when a parsed
document was obtained.  Returns the produced record together with a flag
recording whether `get_news_with_selenium` was invoked. -/
def get_news (media url : String) (staticOutcome : Except String Soup)
    (selOutcome : Except String Driver) : NewsRecord × Bool :=
  match staticOutcome with
  | .error _ => (get_news_with_selenium media url selOutcome, true)
  | .ok soup =>
    let ht := staticHeadline soup media
    let iu := staticImage soup media
    if truthy ht && truthy iu then
      ({ media := pyCapitalize media
         headline := pyOrStr ht "Headline tidak ditemukan"
         image := pyOrStr iu "Image tidak ditemukan"
         url := url }, false)
    else
      (get_news_with_selenium media url selOutcome, true)

/-- The news loop of `main` (src/main.py:653-671): one `get_news` call per
configured source, appended in configuration order.  (`get_news` is total in
this model, so the `except` branch of the loop, which would also append a
record for the source, cannot trigger.)  The per-source fetch outcomes are
supplied as functions of the source. -/
def mainNewsLoop (sources : List SourceCfg) (staticOf : SourceCfg → Except String Soup)
    (selOf : SourceCfg → Except String Driver) : List NewsRecord :=
  sources.map fun s => (get_news s.name s.url (staticOf s) (selOf s)).1

/-! ## Gramedia catalog acquirer (src/main.py:107-281) -/

/-- A product-card container on the rendered catalog page; `findElement`
models `book.find_element` inside the container. -/
structure BookElem where
  findElement : String → Option Element

/-- The rendered catalog page; `findElements` models the container-level
`driver.find_elements`. -/
structure CatalogPage where
  findElements : String → List BookElem

/-- Container-level locator strategies tried in order (src/main.py:148-153). -/
def bookContainerSelectors : List String :=
  ["div.ProductCard_cardContent__fawWr", "div.product-card",
   "div[data-testid=\x27productCard\x27]", "div.product-item"]

def bookImgSelectors : List String :=
  ["img.object-contain", "img.product-image", "img[data-testid=\x27productImage\x27]"]

def bookTitleSelectors : List String :=
  ["h2.text-neutral-700", "h2.product-title", "div.product-name",
   "[data-testid=\x27productTitle\x27]"]

def bookPublisherSelectors : List String :=
  ["div.text-neutral-500", "div.publisher", "div.product-publisher",
   "[data-testid=\x27productPublisher\x27]"]

def bookPriceSelectors : List String :=
  ["div.text-s-extrabold", "div.product-price", "div.price",
   "[data-testid=\x27productPrice\x27]"]

/-- `img = element.get_attribute("src")` (src/main.py:252). -/
def bookImgExtract (e : Element) : Option String :=
  e.getAttr "src"

/-- `element.get_attribute("title") or element.text` (src/main.py:254,256). -/
def bookTitleExtract (e : Element) : Option String :=
  some (pyOrStr (e.getAttr "title") e.text)

/-- `element.text.strip()` (src/main.py:258). -/
def bookPriceExtract (e : Element) : Option String :=
  some (pyStrip e.text)

/-- One emitted book record (src/main.py:267-272).  The Python values are
arbitrary objects assigned to the four variables; a field is `none` exactly
when the corresponding variable ended as Python `None`. -/
structure BookRecord where
  judul : Option String
  penerbit : Option String
  harga : Option String
  imageURL : Option String
deriving DecidableEq

/-- The per-book extraction in `process_book_elements` (src/main.py:240-273):
each field variable starts at `"N/A"`, is overwritten by each matching
selector's extraction, and its loop breaks on the first truthy value. -/
def processBook (b : BookElem) : BookRecord :=
  { judul := selectorLoop b.findElement bookTitleExtract bookTitleSelectors (some "N/A")
    penerbit := selectorLoop b.findElement bookTitleExtract bookPublisherSelectors (some "N/A")
    harga := selectorLoop b.findElement bookPriceExtract bookPriceSelectors (some "N/A")
    imageURL := selectorLoop b.findElement bookImgExtract bookImgSelectors (some "N/A") }

/-- `process_book_elements` (src/main.py:209-281).  The per-book
`try/except` skips a book only on an unexpected exception, which this model
has no source of, so every container yields a record. -/
def process_book_elements (books : List BookElem) : List BookRecord :=
  books.map processBook

/-- The container search loop (src/main.py:155-160): `books` is overwritten
by each strategy's result and the loop breaks at the first non-empty one. -/
def findBookContainers (page : CatalogPage) : List String → List BookElem
  | [] => []
  | sel :: rest =>
    match page.findElements sel with
    | [] => findBookContainers page rest
    | bs => bs

/-- Observable outcome of `get_international_books` once the page is
rendered (src/main.py:148-174): the scraped records, and whether the raw
page source was written to the debug directory (lines 162-170, taken
exactly when no strategy found a container). -/
structure CatalogResult where
  books : List BookRecord
  savedPageSource : Bool
deriving DecidableEq

def get_international_books (page : CatalogPage) : CatalogResult :=
  match findBookContainers page bookContainerSelectors with
  | [] => { books := [], savedPageSource := true }
  | bs => { books := process_book_elements bs, savedPageSource := false }

/-! ## Scroll-until-stable loop (src/main.py:188-206)

The environment is modelled by the initial page height and the sequence of
heights observed after each scroll (`heights k` is `new_height` on the
zero-indexed `k`-th iteration).  The function returns the number of scroll
iterations executed; `fuel` is `max_scrolls - scroll_count`, so the loop
guard `scroll_count < max_scrolls` is `fuel > 0`. -/

def scrollIter (heights : Nat → Int) : Nat → Int → Nat → Nat
  | 0, _, k => k
  | fuel + 1, last, k =>
    let newHeight := heights k
    if newHeight = last then k + 1
    else scrollIter heights fuel newHeight (k + 1)

def scroll_and_collect (h0 : Int) (heights : Nat → Int) : Nat :=
  scrollIter heights 20 h0 0

/-- The height `last_height` holds at the start of iteration `k`. -/
def scrollHeightBefore (h0 : Int) (heights : Nat → Int) : Nat → Int
  | 0 => h0
  | k + 1 => heights k

/-! ## Freshness cache for the news category (src/app.py:26-52) -/

/-- A file in the results directory with its modification timestamp. -/
structure ResultsFile where
  name : String
  mtime : Int
deriving DecidableEq

/-- First element of the list as sorted by `sorted(key=mtime, reverse=True)`:
Python's sort is stable, so this is the first listed file holding the
maximal modification time. -/
def newestByMtime : List ResultsFile → Option ResultsFile
  | [] => none
  | f :: fs =>
    match newestByMtime fs with
    | none => some f
    | some g => if g.mtime > f.mtime then some g else some f

/-- What the `/api/news` handler decides to do. -/
inductive NewsApiAction where
  | serveCached (file : ResultsFile)
  | scrapeFresh
deriving DecidableEq

/-- The cache gate of `get_news_data` (src/app.py:33-52): filter `.xlsx`
files, take the newest by mtime, serve it when strictly younger than 3600
seconds, otherwise scrape fresh data. -/
def get_news_data (files : List ResultsFile) (now : Int) : NewsApiAction :=
  match newestByMtime (files.filter fun f => strEndsWith f.name ".xlsx") with
  | none => .scrapeFresh
  | some f => if now - f.mtime < 3600 then .serveCached f else .scrapeFresh

/-! ## Artifact round-trips (src/main.py:596-614, 681-697; src/app.py:44-49)

The trending artifact is written with `json.dump` and read with `json.load`;
`json.dump ∘ json.load` is lossless on JSON-representable values, so the
artifact is modelled as the JSON document itself.  The news/catalog
artifacts are written with `DataFrame.to_excel` (string values become text
cells, Python `None` an empty cell) and read with `pd.read_excel`; with no
`na_values`/`keep_default_na` overrides (src/app.py:48 and :94) pandas
converts any cell whose text is in its documented default NA list to NaN. -/

inductive Json where
  | null
  | str (s : String)
  | arr (xs : List Json)
  | obj (fields : List (String × Json))

/-- One trending entry as built by the scraper (src/main.py:525-529,
586): Python `None` fields are modelled as `none`. -/
structure TrendingEntry where
  title : Option String
  image : Option String
  tag : Option String
deriving DecidableEq

def optToJson : Option String → Json
  | none => .null
  | some s => .str s

def entryToJson (e : TrendingEntry) : Json :=
  .obj [("title", optToJson e.title), ("image", optToJson e.image), ("tag", optToJson e.tag)]

/-- `save_to_json` (src/main.py:596-600): the document `json.dump` writes. -/
def save_to_json (results : List TrendingEntry) : Json :=
  .arr (results.map entryToJson)

def jsonToOptStr : Json → Option (Option String)
  | .null => some none
  | .str s => some (some s)
  | _ => none

def decodeEntry (j : Json) : Option TrendingEntry :=
  match j with
  | .obj fields =>
    match fields.lookup "title", fields.lookup "image", fields.lookup "tag" with
    | some jt, some ji, some jg =>
      match jsonToOptStr jt, jsonToOptStr ji, jsonToOptStr jg with
      | some t, some i, some g => some ⟨t, i, g⟩
      | _, _, _ => none
    | _, _, _ => none
  | _ => none

def decodeEntries : List Json → Option (List TrendingEntry)
  | [] => some []
  | j :: js =>
    match decodeEntry j, decodeEntries js with
    | some e, some es => some (e :: es)
    | _, _ => none

/-- The trending artifact reader (`json.load` at src/app.py:119-121 followed
by the entry shape the writer produced). -/
def readTrendingArtifact (j : Json) : Option (List TrendingEntry) :=
  match j with
  | .arr xs => decodeEntries xs
  | _ => none

/-- A cell as it comes back from `pd.read_excel`. -/
inductive ExcelCell where
  | strCell (s : String)
  | nanCell
deriving DecidableEq

/-- pandas' documented default NA values (`pd.read_excel` docstring): any
text cell equal to one of these is read back as NaN. -/
def pandasDefaultNaValues : List String :=
  ["", "#N/A", "#N/A N/A", "#NA", "-1.#IND", "-1.#QNAN", "-NaN", "-nan",
   "1.#IND", "1.#QNAN", "<NA>", "N/A", "NA", "NULL", "NaN", "None",
   "n/a", "nan", "null"]

/-- Round trip of one string value through `to_excel` + `read_excel`. -/
def readExcelCell (s : String) : ExcelCell :=
  if s ∈ pandasDefaultNaValues then .nanCell else .strCell s

/-- Round trip of one optional value: Python `None` is written as an empty
cell and read back as NaN. -/
def readExcelCellOpt : Option String → ExcelCell
  | none => .nanCell
  | some s => readExcelCell s

/-- One news row (`Media, Headline, Image, URL`) after the Excel round trip. -/
def readNewsRow (r : NewsRecord) : List ExcelCell :=
  [readExcelCell r.media, readExcelCell r.headline, readExcelCell r.image, readExcelCell r.url]

/-- One catalog row (`Judul, Penerbit, Harga, Image URL`) after the Excel
round trip. -/
def readBookRow (r : BookRecord) : List ExcelCell :=
  [readExcelCellOpt r.judul, readExcelCellOpt r.penerbit,
   readExcelCellOpt r.harga, readExcelCellOpt r.imageURL]

/-! ## AniList trending scraper (src/main.py:473-637) -/

/-- The scraper instance state: the `self.results` accumulator
(src/main.py:484). -/
structure AniListScraper where
  results : List TrendingEntry
deriving DecidableEq

/-- One media object of the GraphQL response (src/main.py:576-584). -/
structure MediaEntry where
  romaji : Option String
  english : Option String
  nativeTitle : Option String
  coverLarge : Option String
  coverMedium : Option String

/-- `anime["title"]["romaji"] or anime["title"]["english"] or
anime["title"]["native"]`. -/
def mediaTitle (m : MediaEntry) : Option String :=
  pyOrOpt (pyOrOpt m.romaji m.english) m.nativeTitle

/-- `anime["coverImage"]["large"] or anime["coverImage"]["medium"]`. -/
def mediaImage (m : MediaEntry) : Option String :=
  pyOrOpt m.coverLarge m.coverMedium

def mediaToEntry (m : MediaEntry) : TrendingEntry :=
  { title := mediaTitle m, image := mediaImage m, tag := mediaTitle m }

/-- Outcome of the GraphQL POST in `use_graphql_api`: `requestError` when a
`RequestException` was raised (before anything is appended), `response m`
when a JSON body arrived, with `m = none` when the
`data`/`Page`/`media` shape check at src/main.py:571-575 fails. -/
inductive GraphQLOutcome where
  | requestError
  | response (media : Option (List MediaEntry))

/-- Entries the successful GraphQL branch appends. -/
def graphqlEntries : Option (List MediaEntry) → List TrendingEntry
  | none => []
  | some ms => ms.map mediaToEntry

/-- `use_graphql_api` (src/main.py:537-594): appends to `self.results` and
returns `len(self.results)` on any non-raising response, returns `0` (with
`self.results` untouched) on a `RequestException`. -/
def use_graphql_api (st : AniListScraper) (o : GraphQLOutcome) : AniListScraper × Nat :=
  match o with
  | .requestError => (st, 0)
  | .response m =>
    let st2 : AniListScraper := { results := st.results ++ graphqlEntries m }
    (st2, st2.results.length)

/-- One card of the fallback HTML page (src/main.py:506-531). -/
structure AnimeCard where
  imageSrc : Option String
  titleText : Option String

/-- How `extract_data_from_html` turns one card into an entry
(src/main.py:508-529): missing image/title become `""`, a
protocol-relative image URL gets the `https:` prefix, and `tag` is the
title. -/
def cardToEntry (c : AnimeCard) : TrendingEntry :=
  let img0 := (c.imageSrc).getD ""
  let img := if strStartsWith img0 "//" then "https:" ++ img0 else img0
  let t := match c.titleText with
    | none => ""
    | some s => pyStrip s
  { title := some t, image := some img, tag := some t }

/-- `extract_data_from_html` (src/main.py:496-535), with `fetch_page`'s
outcome folded in: `none` models `fetch_page` returning `None` (the
function returns without appending), `some cards` the parsed card list. -/
def extract_data_from_html (st : AniListScraper) (html : Option (List AnimeCard)) : AniListScraper :=
  match html with
  | none => st
  | some cards => { results := st.results ++ cards.map cardToEntry }

/-- `run` (src/main.py:616-637): result state plus whether the HTML-scraping
fallback was executed.  Persistence at the end of `run` writes
`save_to_json` of the final `results` (when non-empty), so the artifact
content is determined by the returned state. -/
def runScraper (st : AniListScraper) (use_api : Bool) (gql : GraphQLOutcome)
    (html : Option (List AnimeCard)) : AniListScraper × Bool :=
  if use_api then
    let p := use_graphql_api st gql
    if p.2 > 0 then (p.1, false)
    else (extract_data_from_html p.1 html, true)
  else (extract_data_from_html st html, true)

/-! ## Concrete pages, drivers and states used to evaluate the claims -/

/-- A kompas front page whose first headline selector matches an element
with whitespace-only text while the second matches a real headline. -/
def kompasEmptyTitleSoup : Soup :=
  ⟨fun sel =>
    if sel = ".read__title" then some ⟨"   ", []⟩
    else if sel = ".headline__title" then some ⟨"Banjir melanda Jakarta", []⟩
    else none⟩

/-- A kompas front page on which the static path resolves both fields. -/
def kompasGoodSoup : Soup :=
  ⟨fun sel =>
    if sel = ".read__title" then some ⟨"Judul Berita", []⟩
    else if sel = ".photo__wrap img" then some ⟨"", [("src", "https://cdn.example/a.jpg")]⟩
    else none⟩

/-- A rendered page on which nothing matches at all. -/
def deadDriver : Driver :=
  ⟨fun _ => none, fun _ => []⟩

/-- A catalog page with no item containers under any strategy. -/
def emptyCatalogPage : CatalogPage :=
  ⟨fun _ => []⟩

/-- A product card matched only by the first title selector (an element
with empty title attribute and empty text) and the first image selector
(an element without a `src` attribute). -/
def brokenBook : BookElem :=
  ⟨fun sel =>
    if sel = "h2.text-neutral-700" || sel = "img.object-contain"
    then some ⟨"", []⟩ else none⟩

/-- A product card matched by no field selector at all. -/
def noMatchBook : BookElem :=
  ⟨fun _ => none⟩

/-- A trending entry as a run of the GraphQL branch would produce it. -/
def narutoEntry : TrendingEntry :=
  ⟨some "Naruto", some "https://img.example/naruto.png", some "Naruto"⟩

/-- A rendered page with the same matches as `kompasEmptyTitleSoup`. -/
def skipDriver : Driver :=
  ⟨kompasEmptyTitleSoup.selectOne, fun _ => []⟩

/-- A product card whose title resolves only through the third selector. -/
def richBook : BookElem :=
  ⟨fun sel =>
    if sel = "div.product-name"
    then some ⟨"Atomic Habits", [("title", "Atomic Habits")]⟩ else none⟩

/-! ## Helper lemmas -/

theorem truthy_some_iff (s : String) : truthy (some s) = true ↔ s ≠ "" := by
  simp [truthy]

theorem pyOrStr_ne_empty (a : Option String) (b : String) (hb : b ≠ "") :
    pyOrStr a b ≠ "" := by
  unfold pyOrStr
  split
  · next h =>
    cases a with
    | none => simp [truthy] at h
    | some s => simpa [Option.getD] using (truthy_some_iff s).mp h
  · exact hb

theorem pyCapitalize_ne_empty (s : String) (hs : s ≠ "") : pyCapitalize s ≠ "" := by
  obtain ⟨data⟩ := s
  cases data with
  | nil => exact absurd rfl hs
  | cons c cs =>
    intro h
    have := congrArg String.data h
    simp [pyCapitalize] at this

theorem error_prefix_ne_empty (e : String) : ("Error: " ++ e) ≠ "" := by
  intro h
  have hlen := congrArg String.length h
  rw [String.length_append] at hlen
  have h7 : "Error: ".length = 7 := by decide
  have h0 : ("" : String).length = 0 := by decide
  omega

theorem selectorLoop_of_no_match (find : String → Option Element)
    (extract : Element → Option String) :
    ∀ (sels : List String) (cur : Option String),
      (∀ sel ∈ sels, find sel = none) → selectorLoop find extract sels cur = cur := by
  intro sels
  induction sels with
  | nil => intro cur _; rfl
  | cons sel rest ih =>
    intro cur h
    have hsel : find sel = none := h sel (List.mem_cons_self sel rest)
    simp only [selectorLoop, hsel]
    exact ih cur fun x hx => h x (List.mem_cons_of_mem sel hx)

theorem selectorLoop_eq_cascade (find : String → Option Element)
    (extract : Element → Option String) :
    ∀ (sels : List String) (cur : Option String),
      truthy (cascadeFirstNonEmpty find extract sels) = true →
      selectorLoop find extract sels cur = cascadeFirstNonEmpty find extract sels := by
  intro sels
  induction sels with
  | nil => intro cur h; simp [cascadeFirstNonEmpty, truthy] at h
  | cons sel rest ih =>
    intro cur h
    cases hsel : find sel with
    | none =>
      simp only [cascadeFirstNonEmpty, hsel] at h
      simp only [selectorLoop, cascadeFirstNonEmpty, hsel]
      exact ih cur h
    | some e =>
      simp only [cascadeFirstNonEmpty, hsel] at h
      simp only [selectorLoop, cascadeFirstNonEmpty, hsel]
      by_cases hv : truthy (extract e) = true
      · simp only [if_pos hv]
      · simp only [if_neg hv] at h ⊢
        exact ih (extract e) h

theorem selectorLoopBreakOnMatch_eq (find : String → Option Element)
    (extract : Element → Option String) :
    ∀ (sels : List String) (cur : Option String),
      selectorLoopBreakOnMatch find extract sels cur =
        (match firstMatch find sels with
         | none => cur
         | some e => extract e) := by
  intro sels
  induction sels with
  | nil => intro cur; rfl
  | cons sel rest ih =>
    intro cur
    simp only [selectorLoopBreakOnMatch, firstMatch]
    cases hsel : find sel with
    | none => exact ih cur
    | some e => rfl

theorem scrollIter_spec (heights : Nat → Int) (h0 : Int) :
    ∀ (fuel k : Nat), fuel + k = 20 → 0 < fuel →
      k < scrollIter heights fuel (scrollHeightBefore h0 heights k) k ∧
      scrollIter heights fuel (scrollHeightBefore h0 heights k) k ≤ 20 ∧
      (∀ j, k ≤ j → j + 1 < scrollIter heights fuel (scrollHeightBefore h0 heights k) k →
        heights j ≠ scrollHeightBefore h0 heights j) ∧
      (scrollIter heights fuel (scrollHeightBefore h0 heights k) k < 20 →
        heights (scrollIter heights fuel (scrollHeightBefore h0 heights k) k - 1) =
          scrollHeightBefore h0 heights
            (scrollIter heights fuel (scrollHeightBefore h0 heights k) k - 1)) := by
  intro fuel
  induction fuel with
  | zero => intro k _ hpos; exact absurd hpos (by omega)
  | succ fuel ih =>
    intro k hsum _
    by_cases hst : heights k = scrollHeightBefore h0 heights k
    · have hstep : scrollIter heights (fuel + 1) (scrollHeightBefore h0 heights k) k = k + 1 := by
        simp only [scrollIter]
        rw [if_pos hst]
      rw [hstep]
      refine ⟨Nat.lt_succ_self k, by omega, ?_, ?_⟩
      · intro j hj hj'; omega
      · intro _
        have hk1 : k + 1 - 1 = k := by omega
        rw [hk1]
        exact hst
    · have hstep : scrollIter heights (fuel + 1) (scrollHeightBefore h0 heights k) k =
          scrollIter heights fuel (scrollHeightBefore h0 heights (k + 1)) (k + 1) := by
        simp only [scrollIter]
        rw [if_neg hst]
        rfl
      rw [hstep]
      by_cases hf : 0 < fuel
      · obtain ⟨ha, hb, hc, hd⟩ := ih (k + 1) (by omega) hf
        refine ⟨by omega, hb, ?_, hd⟩
        intro j hj hj'
        rcases Nat.eq_or_lt_of_le hj with hj0 | hj1
        · subst hj0; exact hst
        · exact hc j (by omega) hj'
      · have hfuel : fuel = 0 := by omega
        subst hfuel
        have hk : k = 19 := by omega
        subst hk
        have h20 : scrollIter heights 0 (scrollHeightBefore h0 heights (19 + 1)) (19 + 1) = 20 := rfl
        rw [h20]
        refine ⟨by omega, by omega, ?_, ?_⟩
        · intro j hj hj'; omega
        · intro hcontra; omega

theorem newestByMtime_eq_none (l : List ResultsFile) :
    newestByMtime l = none → l = [] := by
  cases l with
  | nil => intro _; rfl
  | cons f fs =>
    intro h
    exfalso
    cases hr : newestByMtime fs with
    | none => simp [newestByMtime, hr] at h
    | some g =>
      simp only [newestByMtime, hr] at h
      by_cases hc : g.mtime > f.mtime <;> simp [hc] at h

theorem newestByMtime_spec :
    ∀ (l : List ResultsFile) (f : ResultsFile), newestByMtime l = some f →
      f ∈ l ∧ ∀ g ∈ l, g.mtime ≤ f.mtime := by
  intro l
  induction l with
  | nil => intro f h; simp [newestByMtime] at h
  | cons a rest ih =>
    intro f h
    cases hr : newestByMtime rest with
    | none =>
      have hrest := newestByMtime_eq_none rest hr
      subst hrest
      simp only [newestByMtime, Option.some.injEq] at h
      subst h
      refine ⟨List.mem_cons_self a [], ?_⟩
      intro g hg
      simp at hg
      subst hg
      exact le_refl _
    | some g0 =>
      simp only [newestByMtime, hr] at h
      obtain ⟨hg0mem, hg0max⟩ := ih g0 hr
      by_cases hc : g0.mtime > a.mtime
      · rw [if_pos hc] at h
        injection h with h; subst h
        refine ⟨List.mem_cons_of_mem a hg0mem, ?_⟩
        intro g hg
        rcases List.mem_cons.mp hg with hga | hgr
        · subst hga; omega
        · exact hg0max g hgr
      · rw [if_neg hc] at h
        injection h with h; subst h
        refine ⟨List.mem_cons_self a rest, ?_⟩
        intro g hg
        rcases List.mem_cons.mp hg with hga | hgr
        · subst hga; exact le_refl _
        · exact le_trans (hg0max g hgr) (by omega)

theorem decodeEntry_entryToJson (e : TrendingEntry) :
    decodeEntry (entryToJson e) = some e := by
  obtain ⟨t, i, g⟩ := e
  cases t <;> cases i <;> cases g <;> rfl

theorem decodeEntries_map (l : List TrendingEntry) :
    decodeEntries (l.map entryToJson) = some l := by
  induction l with
  | nil => rfl
  | cons e rest ih => simp [decodeEntries, decodeEntry_entryToJson, ih]

theorem get_news_with_selenium_media_url (m u : String) (o : Except String Driver) :
    (get_news_with_selenium m u o).media = pyCapitalize m ∧
    (get_news_with_selenium m u o).url = u := by
  cases o <;> simp [get_news_with_selenium]

theorem get_news_with_selenium_nonempty (m u : String) (o : Except String Driver)
    (hm : m ≠ "") :
    (get_news_with_selenium m u o).media ≠ "" ∧
    (get_news_with_selenium m u o).headline ≠ "" ∧
    (get_news_with_selenium m u o).image ≠ "" := by
  cases o with
  | error e =>
    refine ⟨pyCapitalize_ne_empty m hm, error_prefix_ne_empty e, ?_⟩
    show ("Error" : String) ≠ ""
    decide
  | ok d =>
    refine ⟨pyCapitalize_ne_empty m hm, ?_, ?_⟩
    · exact pyOrStr_ne_empty _ "Headline tidak ditemukan" (by decide)
    · exact pyOrStr_ne_empty _ "Image tidak ditemukan" (by decide)

theorem get_news_media_url (m u : String) (so : Except String Soup)
    (sel : Except String Driver) :
    ((get_news m u so sel).1).media = pyCapitalize m ∧
    ((get_news m u so sel).1).url = u := by
  cases so with
  | error e => exact get_news_with_selenium_media_url m u sel
  | ok soup =>
    simp only [get_news]
    split
    · exact ⟨rfl, rfl⟩
    · exact get_news_with_selenium_media_url m u sel

theorem get_news_nonempty (m u : String) (so : Except String Soup)
    (sel : Except String Driver) (hm : m ≠ "") :
    ((get_news m u so sel).1).media ≠ "" ∧
    ((get_news m u so sel).1).headline ≠ "" ∧
    ((get_news m u so sel).1).image ≠ "" := by
  cases so with
  | error e => exact get_news_with_selenium_nonempty m u sel hm
  | ok soup =>
    simp only [get_news]
    split
    · refine ⟨pyCapitalize_ne_empty m hm, ?_, ?_⟩
      · exact pyOrStr_ne_empty _ "Headline tidak ditemukan" (by decide)
      · exact pyOrStr_ne_empty _ "Image tidak ditemukan" (by decide)
    · exact get_news_with_selenium_nonempty m u sel hm

theorem findBookContainers_nil (page : CatalogPage) :
    ∀ sels : List String, (∀ sel ∈ sels, page.findElements sel = []) →
      findBookContainers page sels = [] := by
  intro sels
  induction sels with
  | nil => intro _; rfl
  | cons sel rest ih =>
    intro h
    have hsel : page.findElements sel = [] := h sel (List.mem_cons_self sel rest)
    simp only [findBookContainers, hsel]
    exact ih fun x hx => h x (List.mem_cons_of_mem sel hx)

/-! ## Claim C1 -/

/-- Claim C1: for every run of the news acquisition loop over a configured
source list (with non-empty names and URLs, as in `NEWS_SOURCES`), the
output batch has exactly one record per source, in configured order (the
i-th record's Media and URL derive from the i-th source), and every
record's Media, Headline, Image and URL fields are non-empty strings,
whatever the per-source fetch outcomes are. -/
theorem news_batch_one_record_per_source
    (sources : List SourceCfg)
    (staticOf : SourceCfg → Except String Soup)
    (selOf : SourceCfg → Except String Driver)
    (hcfg : ∀ s ∈ sources, s.name ≠ "" ∧ s.url ≠ "") :
    (mainNewsLoop sources staticOf selOf).length = sources.length ∧
    ∀ i, ∀ hi : i < sources.length,
      ∃ r : NewsRecord,
        (mainNewsLoop sources staticOf selOf)[i]? = some r ∧
        r.media = pyCapitalize (sources.get ⟨i, hi⟩).name ∧
        r.url = (sources.get ⟨i, hi⟩).url ∧
        r.media ≠ "" ∧ r.headline ≠ "" ∧ r.image ≠ "" ∧ r.url ≠ "" := by
  constructor
  · simp [mainNewsLoop]
  · intro i hi
    have hmem : sources.get ⟨i, hi⟩ ∈ sources := List.get_mem sources i hi
    obtain ⟨hname, hurl⟩ := hcfg _ hmem
    refine ⟨(get_news (sources.get ⟨i, hi⟩).name (sources.get ⟨i, hi⟩).url
        (staticOf (sources.get ⟨i, hi⟩)) (selOf (sources.get ⟨i, hi⟩))).1,
      ?_, ?_, ?_, ?_, ?_, ?_, ?_⟩
    · simp only [mainNewsLoop, List.getElem?_map]
      rw [List.getElem?_eq_getElem hi]
      rfl
    · exact (get_news_media_url _ _ _ _).1
    · exact (get_news_media_url _ _ _ _).2
    · exact (get_news_nonempty _ _ _ _ hname).1
    · exact (get_news_nonempty _ _ _ _ hname).2.1
    · exact (get_news_nonempty _ _ _ _ hname).2.2
    · rw [(get_news_media_url _ _ _ _).2]
      exact hurl

/-- Witness for C1 at the actual `NEWS_SOURCES` configuration, with the
static path raising a transport error for every source and the rendered
path returning a DOM in which nothing matches. -/
theorem news_batch_one_record_per_source_witness :
    (mainNewsLoop NEWS_SOURCES (fun _ => .error "timeout") (fun _ => .ok deadDriver)).length
      = NEWS_SOURCES.length ∧
    ∃ r : NewsRecord,
      (mainNewsLoop NEWS_SOURCES (fun _ => .error "timeout") (fun _ => .ok deadDriver))[0]? = some r ∧
      r.media = pyCapitalize (NEWS_SOURCES.get ⟨0, by decide⟩).name ∧
      r.url = (NEWS_SOURCES.get ⟨0, by decide⟩).url ∧
      r.media ≠ "" ∧ r.headline ≠ "" ∧ r.image ≠ "" ∧ r.url ≠ "" := by
  have h := news_batch_one_record_per_source NEWS_SOURCES (fun _ => .error "timeout")
    (fun _ => .ok deadDriver) (by decide)
  exact ⟨h.1, h.2 0 (by decide)⟩

/-! ## Claim C2 -/

/-- Claim C2: the rendered (Selenium) fetcher is invoked iff the static path
raised a transport error or failed to resolve both required fields to
non-empty values; when the static path resolves both fields, the rendered
fetcher is not invoked; a transport error at the static path transitions
directly to the rendered path (the run's record is the rendered path's
record, not a terminal failure); whenever the rendered path is invoked its
record is the one returned. -/
theorem rendered_iff_static_incomplete (m u : String) (sel : Except String Driver) :
    (∀ soup : Soup,
      (get_news m u (.ok soup) sel).2 =
        !(truthy (staticHeadline soup m) && truthy (staticImage soup m))) ∧
    (∀ e : String, get_news m u (.error e) sel = (get_news_with_selenium m u sel, true)) ∧
    (∀ soup : Soup, (get_news m u (.ok soup) sel).2 = true →
      (get_news m u (.ok soup) sel).1 = get_news_with_selenium m u sel) := by
  refine ⟨?_, fun e => rfl, ?_⟩
  · intro soup
    simp only [get_news]
    cases hc : truthy (staticHeadline soup m) && truthy (staticImage soup m)
    · simp
    · simp
  · intro soup h
    simp only [get_news] at h ⊢
    by_cases hc : (truthy (staticHeadline soup m) && truthy (staticImage soup m)) = true
    · rw [if_pos hc] at h
      simp at h
    · rw [if_neg hc]

/-- Witness for C2: on a page resolving both fields the rendered path is not
invoked; on a page whose headline cascade yields an empty value the rendered
path's record is returned. -/
theorem rendered_iff_static_incomplete_witness :
    (get_news "kompas" "https://www.kompas.com/" (.ok kompasGoodSoup) (.ok deadDriver)).2 = false ∧
    (get_news "kompas" "https://www.kompas.com/" (.ok kompasEmptyTitleSoup) (.ok deadDriver)).1
      = get_news_with_selenium "kompas" "https://www.kompas.com/" (.ok deadDriver) := by
  constructor
  · have h := (rendered_iff_static_incomplete "kompas" "https://www.kompas.com/"
      (.ok deadDriver)).1 kompasGoodSoup
    rw [h]
    decide
  · exact (rendered_iff_static_incomplete "kompas" "https://www.kompas.com/"
      (.ok deadDriver)).2.2 kompasEmptyTitleSoup (by decide)

/-! ## Claim C3 -/

/-- Claim C3 counterexample: on `kompasEmptyTitleSoup` the first configured
kompas headline locator matches an element whose trimmed text is empty and
the second matches a real headline.  The claim requires the cascade to
continue to the later locator, but the static-path headline cascade stops
at the first match and returns the empty value. -/
theorem static_headline_stops_at_empty_match :
    staticHeadline kompasEmptyTitleSoup "kompas" = some "" ∧
    cascadeFirstNonEmpty kompasEmptyTitleSoup.selectOne headlineTextExtract
      ((HEADLINE_SELECTORS.lookup "kompas").getD []) = some "Banjir melanda Jakarta" ∧
    (some "" : Option String) ≠ some "Banjir melanda Jakarta" := by
  refine ⟨by decide, by decide, by decide⟩

/-- Claim C3 (amended): the rendered-path headline and image cascades and
the static-path image cascade do return the value of the first locator in
order that yields a non-empty extracted value, continuing past locators
whose match extracts an empty value; the static-path headline cascade
instead returns the trimmed text of the first locator that matches an
element at all, even when that text is empty. -/
theorem selector_cascade_first_nonempty (soup : Soup) (d : Driver) (sels : List String) :
    (truthy (cascadeFirstNonEmpty d.findElement headlineTextExtract sels) = true →
      selectorLoop d.findElement headlineTextExtract sels none =
        cascadeFirstNonEmpty d.findElement headlineTextExtract sels) ∧
    (truthy (cascadeFirstNonEmpty d.findElement imageExtract sels) = true →
      selectorLoop d.findElement imageExtract sels none =
        cascadeFirstNonEmpty d.findElement imageExtract sels) ∧
    (truthy (cascadeFirstNonEmpty soup.selectOne imageExtract sels) = true →
      selectorLoop soup.selectOne imageExtract sels none =
        cascadeFirstNonEmpty soup.selectOne imageExtract sels) ∧
    (selectorLoopBreakOnMatch soup.selectOne headlineTextExtract sels none =
      match firstMatch soup.selectOne sels with
      | none => none
      | some e => headlineTextExtract e) :=
  ⟨selectorLoop_eq_cascade _ _ sels none, selectorLoop_eq_cascade _ _ sels none,
    selectorLoop_eq_cascade _ _ sels none, selectorLoopBreakOnMatch_eq _ _ sels none⟩

/-- Witness for C3 (amended): the rendered-path headline cascade on the same
two locators does skip the empty first match and return the second value. -/
theorem selector_cascade_first_nonempty_witness :
    selectorLoop skipDriver.findElement headlineTextExtract
      [".read__title", ".headline__title"] none = some "Banjir melanda Jakarta" := by
  have h := (selector_cascade_first_nonempty kompasEmptyTitleSoup skipDriver
    [".read__title", ".headline__title"]).1 (by decide)
  rw [h]
  decide

/-! ## Claim C4 -/

/-- Claim C4 counterexample: with the static path raising a transport error
and the rendered path raising too, the emitted record's headline is
"Error: " followed by the particular exception message and its image is
"Error" — an error-derived string, not the fixed not-found sentinel, and
different transport errors give different headlines. -/
theorem sentinel_record_is_error_derived :
    (get_news "kompas" "https://www.kompas.com/" (.error "refused") (.error "dns fail")).1
      = ⟨"Kompas", "Error: dns fail", "Error", "https://www.kompas.com/"⟩ ∧
    (get_news "kompas" "https://www.kompas.com/" (.error "refused") (.error "timeout")).1
      = ⟨"Kompas", "Error: timeout", "Error", "https://www.kompas.com/"⟩ ∧
    ("Error: dns fail" : String) ≠ "Headline tidak ditemukan" ∧
    ("Error: dns fail" : String) ≠ "Error: timeout" := by
  refine ⟨by decide, by decide, by decide, by decide⟩

/-- Claim C4 (amended): after a static-path transport error, a rendered-path
total-resolution failure yields the fixed sentinel record
("Headline tidak ditemukan" / "Image tidak ditemukan") with media and url
preserved from configuration, while a rendered-path transport error instead
yields the error-derived record ("Error: <message>" / "Error"); in either
case the batch still contains one record for every configured source. -/
theorem failed_source_record_and_batch (m u e se : String) (d : Driver)
    (sources : List SourceCfg) (staticOf : SourceCfg → Except String Soup)
    (selOf : SourceCfg → Except String Driver)
    (hh : truthy (seleniumHeadline d m) = false)
    (hi : truthy (seleniumImage d m) = false) :
    get_news m u (.error e) (.ok d) =
      (⟨pyCapitalize m, "Headline tidak ditemukan", "Image tidak ditemukan", u⟩, true) ∧
    get_news m u (.error e) (.error se) =
      (⟨pyCapitalize m, "Error: " ++ se, "Error", u⟩, true) ∧
    (mainNewsLoop sources staticOf selOf).length = sources.length := by
  refine ⟨?_, rfl, by simp [mainNewsLoop]⟩
  simp [get_news, get_news_with_selenium, pyOrStr, hh, hi]

/-- Witness for C4 (amended) on a rendered DOM in which nothing matches. -/
theorem failed_source_record_and_batch_witness :
    get_news "kompas" "https://www.kompas.com/" (.error "refused") (.ok deadDriver) =
      (⟨"Kompas", "Headline tidak ditemukan", "Image tidak ditemukan",
        "https://www.kompas.com/"⟩, true) := by
  have h := (failed_source_record_and_batch "kompas" "https://www.kompas.com/" "refused" "x"
    deadDriver [] (fun _ => .error "") (fun _ => .error "") (by decide) (by decide)).1
  rw [h]
  decide

/-! ## Claim C5 -/

/-- Claim C5: for every initial height and every sequence of observed
heights, the scroll loop executes between 1 and 20 iterations; every
iteration other than the last observed a changed height (so it terminates
on the first iteration whose height is unchanged), and when it stops before
the 20-iteration cap the last iteration's height was unchanged. -/
theorem scroll_cap_and_first_stable (h0 : Int) (heights : Nat → Int) :
    1 ≤ scroll_and_collect h0 heights ∧
    scroll_and_collect h0 heights ≤ 20 ∧
    (∀ j, j + 1 < scroll_and_collect h0 heights →
      heights j ≠ scrollHeightBefore h0 heights j) ∧
    (scroll_and_collect h0 heights < 20 →
      heights (scroll_and_collect h0 heights - 1) =
        scrollHeightBefore h0 heights (scroll_and_collect h0 heights - 1)) := by
  obtain ⟨ha, hb, hc, hd⟩ := scrollIter_spec heights h0 20 0 rfl (by omega)
  exact ⟨ha, hb, fun j hj => hc j (Nat.zero_le j) hj, hd⟩

/-- Witness for C5: with a constant height sequence the loop stops after two
iterations (the second observes an unchanged height), inside the cap. -/
theorem scroll_cap_and_first_stable_witness :
    scroll_and_collect 0 (fun _ => (1 : Int)) ≤ 20 ∧
    scrollHeightBefore 0 (fun _ => (1 : Int))
      (scroll_and_collect 0 (fun _ => (1 : Int)) - 1) = 1 := by
  have h := scroll_cap_and_first_stable 0 (fun _ => (1 : Int))
  exact ⟨h.2.1, (h.2.2.2 (by decide)).symm⟩

/-! ## Claim C6 -/

/-- Claim C6: with `f` the newest persisted `.xlsx` artifact, the news cache
gate serves the cached artifact (without invoking the acquirer) when the
artifact's age is strictly below the 3600-second TTL, invokes the acquirer
when the age exceeds it, and only the newest artifact matters: every other
`.xlsx` file is at most as recent as `f`. -/
theorem news_cache_ttl_gate (files : List ResultsFile) (now : Int) (f : ResultsFile)
    (hf : newestByMtime (files.filter fun x => strEndsWith x.name ".xlsx") = some f) :
    (now - f.mtime < 3600 → get_news_data files now = .serveCached f) ∧
    (now - f.mtime > 3600 → get_news_data files now = .scrapeFresh) ∧
    (∀ g ∈ files, strEndsWith g.name ".xlsx" = true → g.mtime ≤ f.mtime) := by
  refine ⟨?_, ?_, ?_⟩
  · intro h
    simp only [get_news_data, hf]
    rw [if_pos h]
  · intro h
    simp only [get_news_data, hf]
    rw [if_neg (by omega)]
  · intro g hg hext
    have hmem : g ∈ files.filter fun x => strEndsWith x.name ".xlsx" := by
      simp [List.mem_filter, hg, hext]
    exact (newestByMtime_spec _ f hf).2 g hmem

/-- Witness for C6: with the newest artifact 59 minutes old (3540 s) the
cached artifact is served; at 61 minutes of age (3660 s) fresh data is
scraped. -/
theorem news_cache_ttl_gate_witness :
    get_news_data [⟨"web_a.xlsx", 6460⟩, ⟨"web_b.xlsx", 3000⟩] 10000
      = .serveCached ⟨"web_a.xlsx", 6460⟩ ∧
    get_news_data [⟨"web_a.xlsx", 6460⟩, ⟨"web_b.xlsx", 3000⟩] 10120 = .scrapeFresh := by
  constructor
  · exact (news_cache_ttl_gate [⟨"web_a.xlsx", 6460⟩, ⟨"web_b.xlsx", 3000⟩] 10000
      ⟨"web_a.xlsx", 6460⟩ (by decide)).1 (by decide)
  · exact (news_cache_ttl_gate [⟨"web_a.xlsx", 6460⟩, ⟨"web_b.xlsx", 3000⟩] 10120
      ⟨"web_a.xlsx", 6460⟩ (by decide)).2.1 (by decide)

/-! ## Claim C7 -/

/-- Claim C7: when no container-level locator strategy matches any item
container, the catalog acquirer returns the empty record list and persists
the raw page source for diagnosis (the model is a total function, so no
exception can escape). -/
theorem catalog_zero_containers (page : CatalogPage)
    (h : ∀ sel ∈ bookContainerSelectors, page.findElements sel = []) :
    get_international_books page = ⟨[], true⟩ := by
  have hfind := findBookContainers_nil page bookContainerSelectors h
  simp [get_international_books, hfind]

/-- Witness for C7 on a page matching nothing. -/
theorem catalog_zero_containers_witness :
    get_international_books emptyCatalogPage = ⟨[], true⟩ :=
  catalog_zero_containers emptyCatalogPage fun _ _ => rfl

/-! ## Claim C8 -/

/-- Claim C8 counterexample: `brokenBook`'s first title selector matches an
element whose title attribute is absent and whose text is empty, and its
first image selector matches an element without a `src` attribute; no later
selector matches.  The emitted record holds the empty string for Judul and
Python `None` for Image URL — not the fixed "N/A" sentinel, and a null and
an empty field are emitted. -/
theorem book_record_empty_and_none_fields :
    process_book_elements [brokenBook] = [⟨some "", some "N/A", some "N/A", none⟩] ∧
    (some "" : Option String) ≠ some "N/A" ∧
    (none : Option String) ≠ some "N/A" := by
  refine ⟨by decide, by decide, by decide⟩

/-- Claim C8 (amended): a field whose selectors match no element keeps the
fixed "N/A" sentinel, and a field for which some selector extracts a
non-empty value holds the first such value; but a field whose matching
selectors all extract empty/None values retains the last such extraction,
so an emitted field can be the empty string or None. -/
theorem book_record_field_values (b : BookElem) :
    ((∀ sel ∈ bookTitleSelectors, b.findElement sel = none) →
      (processBook b).judul = some "N/A") ∧
    (truthy (cascadeFirstNonEmpty b.findElement bookTitleExtract bookTitleSelectors) = true →
      (processBook b).judul =
        cascadeFirstNonEmpty b.findElement bookTitleExtract bookTitleSelectors) ∧
    ((∀ sel ∈ bookPublisherSelectors, b.findElement sel = none) →
      (processBook b).penerbit = some "N/A") ∧
    (truthy (cascadeFirstNonEmpty b.findElement bookTitleExtract bookPublisherSelectors) = true →
      (processBook b).penerbit =
        cascadeFirstNonEmpty b.findElement bookTitleExtract bookPublisherSelectors) ∧
    ((∀ sel ∈ bookPriceSelectors, b.findElement sel = none) →
      (processBook b).harga = some "N/A") ∧
    (truthy (cascadeFirstNonEmpty b.findElement bookPriceExtract bookPriceSelectors) = true →
      (processBook b).harga =
        cascadeFirstNonEmpty b.findElement bookPriceExtract bookPriceSelectors) ∧
    ((∀ sel ∈ bookImgSelectors, b.findElement sel = none) →
      (processBook b).imageURL = some "N/A") ∧
    (truthy (cascadeFirstNonEmpty b.findElement bookImgExtract bookImgSelectors) = true →
      (processBook b).imageURL =
        cascadeFirstNonEmpty b.findElement bookImgExtract bookImgSelectors) :=
  ⟨fun h => selectorLoop_of_no_match _ _ _ _ h,
   fun h => selectorLoop_eq_cascade _ _ _ _ h,
   fun h => selectorLoop_of_no_match _ _ _ _ h,
   fun h => selectorLoop_eq_cascade _ _ _ _ h,
   fun h => selectorLoop_of_no_match _ _ _ _ h,
   fun h => selectorLoop_eq_cascade _ _ _ _ h,
   fun h => selectorLoop_of_no_match _ _ _ _ h,
   fun h => selectorLoop_eq_cascade _ _ _ _ h⟩

/-- Witness for C8 (amended): a card matching no selector keeps "N/A"
everywhere; a card whose third title selector carries a real title resolves
to that title. -/
theorem book_record_field_values_witness :
    (processBook noMatchBook).judul = some "N/A" ∧
    (processBook noMatchBook).imageURL = some "N/A" ∧
    (processBook richBook).judul = some "Atomic Habits" := by
  refine ⟨(book_record_field_values noMatchBook).1 (fun _ _ => rfl),
    (book_record_field_values noMatchBook).2.2.2.2.2.2.1 (fun _ _ => rfl), ?_⟩
  have h := (book_record_field_values richBook).2.1 (by decide)
  rw [h]
  decide

/-! ## Claim C9 -/

/-- Claim C9 counterexample: the catalog record produced for a container
matching no field selector holds the "N/A" sentinel in all four fields, and
reading its persisted row back through the Excel reader yields four NaN
cells, not the original strings: the round trip is lossy exactly on
sentinel-valued fields. -/
theorem excel_roundtrip_loses_sentinel :
    processBook noMatchBook = ⟨some "N/A", some "N/A", some "N/A", some "N/A"⟩ ∧
    readBookRow (processBook noMatchBook) = [.nanCell, .nanCell, .nanCell, .nanCell] ∧
    ExcelCell.nanCell ≠ .strCell "N/A" := by
  refine ⟨by decide, by decide, by decide⟩

/-- Claim C9 (amended): the trending JSON artifact round-trips
field-for-field identically for every result set; a news or catalog record
round-trips through the Excel artifact identically when none of its field
values is among the Excel reader's default NA tokens — but the "N/A"
sentinel is such a token and is read back as NaN. -/
theorem artifact_roundtrip (l : List TrendingEntry) (r : NewsRecord)
    (jt jp jh ji : String)
    (hm : r.media ∉ pandasDefaultNaValues) (hh : r.headline ∉ pandasDefaultNaValues)
    (hi : r.image ∉ pandasDefaultNaValues) (hu : r.url ∉ pandasDefaultNaValues)
    (ht : jt ∉ pandasDefaultNaValues) (hp : jp ∉ pandasDefaultNaValues)
    (hg : jh ∉ pandasDefaultNaValues) (hj : ji ∉ pandasDefaultNaValues) :
    readTrendingArtifact (save_to_json l) = some l ∧
    readNewsRow r = [.strCell r.media, .strCell r.headline, .strCell r.image, .strCell r.url] ∧
    readBookRow ⟨some jt, some jp, some jh, some ji⟩
      = [.strCell jt, .strCell jp, .strCell jh, .strCell ji] ∧
    readExcelCell "N/A" = .nanCell := by
  refine ⟨?_, ?_, ?_, by decide⟩
  · simp [readTrendingArtifact, save_to_json, decodeEntries_map]
  · simp [readNewsRow, readExcelCell, hm, hh, hi, hu]
  · simp [readBookRow, readExcelCellOpt, readExcelCell, ht, hp, hg, hj]

/-- Witness for C9 (amended) on a concrete trending list and news record. -/
theorem artifact_roundtrip_witness :
    readTrendingArtifact (save_to_json [narutoEntry]) = some [narutoEntry] ∧
    readNewsRow ⟨"Kompas", "Judul Berita", "https://cdn.example/a.jpg",
        "https://www.kompas.com/"⟩
      = [.strCell "Kompas", .strCell "Judul Berita", .strCell "https://cdn.example/a.jpg",
         .strCell "https://www.kompas.com/"] := by
  have h := artifact_roundtrip [narutoEntry]
    ⟨"Kompas", "Judul Berita", "https://cdn.example/a.jpg", "https://www.kompas.com/"⟩
    "a" "b" "c" "d" (by decide) (by decide) (by decide) (by decide)
    (by decide) (by decide) (by decide) (by decide)
  exact ⟨h.1, h.2.1⟩

/-! ## Claim C10 -/

/-- Claim C10 counterexample: on an instance holding one prior result, a
GraphQL transport error makes `use_graphql_api` return 0 — not the
cumulative results length 1 — and `run` then executes the HTML-scraping
fallback although prior results exist, contradicting the claim that the
fallback is never triggered when prior results exist. -/
theorem graphql_error_triggers_fallback_despite_prior_results :
    (use_graphql_api ⟨[narutoEntry]⟩ .requestError).2 = 0 ∧
    (⟨[narutoEntry]⟩ : AniListScraper).results.length = 1 ∧
    (runScraper ⟨[narutoEntry]⟩ true .requestError (some [])).2 = true := by
  refine ⟨rfl, rfl, rfl⟩

/-- Claim C10 (amended): repeated runs on one instance are not independent:
`run` appends the newly fetched entries to the existing results (so the
persisted artifacts contain the earlier entries again plus the new ones);
whenever the GraphQL request completes without a transport error,
`use_graphql_api` returns the cumulative length of the results list, and
with non-empty prior results the HTML fallback is then not triggered even
when the call contributes zero new entries; a transport error instead makes
it return 0 and triggers the fallback even when prior results exist. -/
theorem scraper_runs_accumulate (st : AniListScraper) (m : Option (List MediaEntry))
    (html : Option (List AnimeCard)) (hne : st.results ≠ []) :
    (use_graphql_api st (.response m)).1.results = st.results ++ graphqlEntries m ∧
    (use_graphql_api st (.response m)).2 = st.results.length + (graphqlEntries m).length ∧
    (runScraper st true (.response m) html).2 = false ∧
    (runScraper st true (.response m) html).1.results = st.results ++ graphqlEntries m ∧
    use_graphql_api st .requestError = (st, 0) ∧
    (runScraper st true .requestError html).2 = true := by
  have hlen : 0 < (use_graphql_api st (.response m)).2 := by
    have hpos : 0 < st.results.length := List.length_pos.mpr hne
    simp only [use_graphql_api, List.length_append]
    omega
  have hpos : 0 < st.results.length := List.length_pos.mpr hne
  refine ⟨rfl, by simp [use_graphql_api], ?_, ?_, rfl, rfl⟩
  · simp [runScraper, hlen]
  · simp [runScraper, hlen, use_graphql_api, hpos]

/-- Witness for C10 (amended): with one prior entry and a successful GraphQL
response contributing nothing, the fallback is skipped and the results list
keeps the prior entry. -/
theorem scraper_runs_accumulate_witness :
    (runScraper ⟨[narutoEntry]⟩ true (.response (some [])) none).2 = false ∧
    (runScraper ⟨[narutoEntry]⟩ true (.response (some [])) none).1.results = [narutoEntry] := by
  have h := scraper_runs_accumulate ⟨[narutoEntry]⟩ (some []) none (by decide)
  refine ⟨h.2.2.1, ?_⟩
  rw [h.2.2.2.1]
  decide

end WebScraper
